import Mathlib

/-
Verification of the water-model analysis scripts (calc_DHvap.py,
calc_density.py, examples/diffusion/calc_diffusion.py).

Modelling conventions. Python floats are embedded as rationals (ℚ): every
numeric literal in the scripts is a decimal literal, exact in ℚ, and the
claims are about the algebraic formulas. A replica file is embedded as the
list of numeric tokens its content parses to (List ℚ), or as a list of
(time, value) pairs for the diffusion script. A fatal script termination
(explicit exit(1), or an uncaught Python exception such as ZeroDivisionError)
is embedded as the error branch of an Except value. The square root in the
sample standard deviation is kept symbolic: definitions carry the radicand
(sum of squared deviations over the Bessel divisor) and theorems state the
Real.sqrt of it, so that all definitions stay computable.
-/

namespace WaterModel

/-- Fatal failure modes of the pipeline, named after the error taxonomy of
the design: emptySeries models the ZeroDivisionError raised when a replica
file yields zero tokens, insufficientReplicas models the diagnostic print
plus exit(1) when fewer than MIN_DATA_FILES replica files match. -/
inductive PipelineError where
  | emptySeries
  | insufficientReplicas
  deriving DecidableEq, Repr

/-- MIN_DATA_FILES = 2 in all three scripts. -/
def MIN_DATA_FILES : ℕ := 2

/-- Mean reduction of one replica series: U_avg = float(sum(Us)) / len(Us)
(calc_DHvap.py line 104, calc_density.py line 71). On an empty series the
Python division raises ZeroDivisionError, a fatal error. -/
def meanReduce (xs : List ℚ) : Except PipelineError ℚ :=
  if xs.length = 0 then .error .emptySeries
  else .ok (xs.sum / (xs.length : ℚ))

/-- Statistical aggregation of the per-replica estimates as the drivers run
it: the driver first checks num_files < MIN_DATA_FILES and terminates, so
aggregation happens only with at least 2 estimates; then
mean = sum / len and divisor = float(num_files - 1), and the standard
deviation is sqrt of the returned radicand
sum((v - mean)^2) / divisor (calc_DHvap.py lines 89-117). -/
def aggregate (vs : List ℚ) : Except PipelineError (ℚ × ℚ) :=
  if vs.length < MIN_DATA_FILES then .error .insufficientReplicas
  else
    let mean : ℚ := vs.sum / (vs.length : ℚ)
    let divisor : ℚ := ((vs.length - 1 : ℕ) : ℚ)
    .ok (mean, (vs.map (fun v => (v - mean) ^ 2)).sum / divisor)

/-- A fatal process termination: the diagnostic message printed and the
nonzero exit status. -/
structure FatalExit where
  msg : String
  code : ℕ
  deriving DecidableEq, Repr

namespace DHvap

/-- N = 512, the number of molecules (calc_DHvap.py line 68). -/
def N : ℕ := 512

/-- R = 0.0019872036, the gas constant in kcal/(K*mol) (calc_DHvap.py line 69). -/
def R : ℚ := 0.0019872036

/-- Per-replica heat-of-vaporization estimate
DH_vap = - U_avg / N + R * TEMPERATURE (calc_DHvap.py line 108),
with U_avg the mean of the potential-energy series. -/
def dhvapOf (T : ℤ) (Us : List ℚ) : ℚ :=
  - (Us.sum / (Us.length : ℚ)) / (N : ℚ) + R * (T : ℚ)

/-- mu_gas = 1.854989 D, the experimental gas-phase dipole (calc_DHvap.py line 74). -/
def mu_gas : ℚ := 1.854989

/-- mu_liquid = 2.28 D, the model liquid dipole (calc_DHvap.py line 75). -/
def mu_liquid : ℚ := 2.28

/-- alpha_gas = 1.6633e-40, mean gas-phase polarizability (calc_DHvap.py line 76). -/
def alpha_gas : ℚ := 1.6633e-40

/-- CONV_FACT = (1/(3.33564e-30)^2) * (4184/6.022e23) (calc_DHvap.py line 81). -/
def CONV_FACT : ℚ := (1 / (3.33564e-30) ^ 2) * (4184 / 6.022e23)

/-- C_pol as recomputed in each iteration of the temperature loop
(calc_DHvap.py line 83); the defining expression does not mention the loop
temperature, the integer argument records the iteration it is computed in. -/
def cPolAt (_T : ℤ) : ℚ :=
  -0.5 * ((mu_gas - mu_liquid)) ^ 2 / (alpha_gas * CONV_FACT)

/-- C_pol, the polarization correction constant (calc_DHvap.py line 83). -/
def C_pol : ℚ := -0.5 * ((mu_gas - mu_liquid)) ^ 2 / (alpha_gas * CONV_FACT)

/-- C_x = 0, neglected because small (calc_DHvap.py line 86). -/
def C_x : ℚ := 0

/-- The seven temperatures of the primary loop (calc_DHvap.py line 61). -/
def temps : List ℤ := [238, 258, 268, 278, 298, 318, 338]

/-- One emitted row of DHvap_ssmp_m4_1atm.dat: temperature, pressure, mean,
correction, corrected mean, and the radicand of the standard deviation
(calc_DHvap.py lines 121-123). -/
structure DHRow where
  temp : ℚ
  pressure : ℚ
  mean : ℚ
  corr : ℚ
  mean_corr : ℚ
  std_dev_sq : ℚ
  deriving DecidableEq, Repr

/-- One temperature of the primary loop of calc_DHvap.py (lines 61-123):
the correction C = C_pol + C_vib + C_ni + C_x is computed from the two
correction tables, then files are counted and the run terminates with
exit(1) after a diagnostic if fewer than MIN_DATA_FILES matched; an empty
replica file makes the mean reduction raise ZeroDivisionError; otherwise
each file is reduced to DH_vap = -U_avg/N + R*T, the estimates are
aggregated with the Bessel divisor, and the row
(T, 1, mean, C, mean + C, SD) is emitted. -/
def runDHvapTemp (cvib cni : ℤ → ℚ) (T : ℤ) (files : List (List ℚ)) :
    Except FatalExit DHRow :=
  let C : ℚ := C_pol + cvib T + cni T + C_x
  if files.length < MIN_DATA_FILES then
    .error ⟨"Less than 2 .dat files were found to process, terminating.", 1⟩
  else if files.any List.isEmpty then
    .error ⟨"ZeroDivisionError: float division by zero", 1⟩
  else
    let DH_vaps := files.map (dhvapOf T)
    let divisor : ℚ := ((files.length - 1 : ℕ) : ℚ)
    let mean : ℚ := DH_vaps.sum / (DH_vaps.length : ℚ)
    let std_dev_sq := (DH_vaps.map (fun v => (v - mean) ^ 2)).sum / divisor
    .ok ⟨(T : ℚ), 1, mean, C, mean + C, std_dev_sq⟩

end DHvap

/-- A file-handle event: handle number i is opened, or closed. -/
inductive Ev where
  | opened (i : ℕ)
  | closed (i : ℕ)
  deriving DecidableEq, Repr

/-- Handle events of one temperature of calc_DHvap.py. multi_file_manager
(lines 16-21) opens every matched file before yielding; its generator body
has no try/finally, so the close loop after the yield runs only when the
with-body completes normally. When numFiles < MIN_DATA_FILES the body calls
exit(1) inside the with-block (lines 91-94): SystemExit propagates through
the yield, the generator is closed without reaching its close loop, and no
close event is emitted for any opened handle. -/
def traceDHvap (numFiles : ℕ) : List Ev :=
  let openEvs := (List.range numFiles).map Ev.opened
  if numFiles < MIN_DATA_FILES then openEvs
  else openEvs ++ (List.range numFiles).map Ev.closed

namespace Density

/-- CONV_FACT = 1.66, amu per cubic angstrom to g/cm^3 (calc_density.py line 52). -/
def CONV_FACT : ℚ := 1.66

/-- MASS = 512 * (15.9994 + 1.008 + 1.008), 512 molecules times the molar
mass of water (calc_density.py line 53). -/
def MASS : ℚ := 512 * (15.9994 + 1.008 + 1.008)

/-- Mean volume of one replica file: vol_avg = sum(volumes)/len(volumes)
(calc_density.py line 71). -/
def volAvg (volumes : List ℚ) : ℚ := volumes.sum / (volumes.length : ℚ)

/-- Per-replica density estimate: density = CONV_FACT * MASS / vol_avg
(calc_density.py line 75). -/
def densityOf (volumes : List ℚ) : ℚ := CONV_FACT * MASS / volAvg volumes

/-- The loop state of the per-file loop of calc_density.py: the two growing
lists vol_avgs and densities, and the three scalars vol_mean, mean and the
radicand of std_dev that are recomputed in every iteration (lines 68-88). -/
structure LoopState where
  vol_avgs : List ℚ
  densities : List ℚ
  vol_mean : ℚ
  mean : ℚ
  std_dev_sq : ℚ
  deriving DecidableEq, Repr

/-- One iteration of the per-file loop (calc_density.py lines 68-88):
append vol_avg and density for this file, then recompute vol_mean, mean and
the standard deviation over the lists accumulated so far, with the fixed
divisor float(num_files - 1). -/
def stepFile (divisor : ℚ) (st : LoopState) (volumes : List ℚ) : LoopState :=
  let vol_avg := volumes.sum / (volumes.length : ℚ)
  let vol_avgs := st.vol_avgs ++ [vol_avg]
  let density := CONV_FACT * MASS / vol_avg
  let densities := st.densities ++ [density]
  let vol_mean := vol_avgs.sum / (vol_avgs.length : ℚ)
  let mean := densities.sum / (densities.length : ℚ)
  let std_dev_sq := (densities.map (fun d => (d - mean) ^ 2)).sum / divisor
  ⟨vol_avgs, densities, vol_mean, mean, std_dev_sq⟩

/-- The loop state reached after processing a list of files: both lists are
the maps of the processed files and the scalars are recomputed from them,
with the fixed Bessel divisor. -/
def mkState (divisor : ℚ) (done : List (List ℚ)) : LoopState :=
  let vol_avgs := done.map volAvg
  let densities := done.map densityOf
  let mean := densities.sum / (densities.length : ℚ)
  ⟨vol_avgs, densities, vol_avgs.sum / (vol_avgs.length : ℚ), mean,
    (densities.map (fun d => (d - mean) ^ 2)).sum / divisor⟩

/-- One emitted row of dens_ssmp_m4_1atm.dat: temperature, pressure, mean
volume, mean density and the radicand of the standard deviation
(calc_density.py lines 91-93); the density table has no correction columns. -/
structure DensRow where
  temp : ℚ
  pressure : ℚ
  vol_mean : ℚ
  mean : ℚ
  std_dev_sq : ℚ
  deriving DecidableEq, Repr

/-- One temperature of the primary loop of calc_density.py (lines 45-93):
count the matched files and terminate with exit(1) after a diagnostic if
fewer than MIN_DATA_FILES matched; an empty replica file makes the mean
reduction raise ZeroDivisionError; otherwise run the per-file loop and emit
the row (T, 1, vol_mean, mean, SD) from the final loop state. -/
def runDensityTemp (T : ℤ) (files : List (List ℚ)) :
    Except FatalExit DensRow :=
  if files.length < MIN_DATA_FILES then
    .error ⟨"Less than 2 .dat files were found to process, terminating.", 1⟩
  else if files.any List.isEmpty then
    .error ⟨"ZeroDivisionError: float division by zero", 1⟩
  else
    let divisor : ℚ := ((files.length - 1 : ℕ) : ℚ)
    let final := files.foldl (stepFile divisor) ⟨[], [], 0, 0, 0⟩
    .ok ⟨(T : ℚ), 1, final.vol_mean, final.mean, final.std_dev_sq⟩

end Density

namespace Diffusion

/-- k_B = 1.380648e-23, the Boltzmann constant in J/K
(calc_diffusion.py line 65). -/
def k_B : ℚ := 1.380648e-23

/-- L = 24.83689e-10, the box edge length in meters (calc_diffusion.py line 66). -/
def L : ℚ := 24.83689e-10

/-- CONV_FACT3 = 100 (calc_diffusion.py line 67). -/
def CONV_FACT3 : ℚ := 100

/-- CONV_FACT = 1e-3, centipoise to kg/(m*s) (calc_diffusion.py line 35). -/
def CONV_FACT_VISC : ℚ := 1e-3

/-- The viscosity table loader (calc_diffusion.py lines 34-40): each data
row (T, visc) stores visc * CONV_FACT in the dictionary under key T, later
rows overwriting earlier ones. -/
def loadVisc (rows : List (ℤ × ℚ)) : ℤ → Option ℚ :=
  rows.foldl
    (fun tbl row => fun T => if T = row.1 then some (row.2 * CONV_FACT_VISC) else tbl T)
    (fun _ => none)

/-- The size-dependence correction constant
constant = (2.837297 * k_B)/(6 * pi) (calc_diffusion.py line 70); pi is
passed as a parameter standing for the float constant math.pi. -/
def diffusionConstant (pi : ℚ) : ℚ := (2.837297 * k_B) / (6 * pi)

/-- The diffusion correction
C = constant * (TEMPERATURE/(viscs[TEMPERATURE]*L)) / 1e-9
(calc_diffusion.py line 71), with the looked-up viscosity passed in. -/
def corrDiff (pi : ℚ) (T : ℤ) (visc : ℚ) : ℚ :=
  diffusionConstant pi * ((T : ℚ) / (visc * L)) / 1e-9

/-- Modelled from the spec: np.polyfit(xd, yd, 1) is external library code;
per the spec it is the standard closed-form ordinary-least-squares degree-1
fit, whose slope is
(n * sum(x*y) - sum(x) * sum(y)) / (n * sum(x^2) - sum(x)^2). -/
def olsSlope (xd yd : List ℚ) : ℚ :=
  let n : ℚ := (xd.length : ℚ)
  let Sx := xd.sum
  let Sy := yd.sum
  let Sxy := ((xd.zip yd).map (fun p => p.1 * p.2)).sum
  let Sxx := (xd.map (fun x => x ^ 2)).sum
  (n * Sxy - Sx * Sy) / (n * Sxx - Sx ^ 2)

/-- The slope reduction of one replica MSD file (calc_diffusion.py lines
88-96): the time column is rescaled by 10, then the best-fit slope of value
vs. rescaled time is taken; the intercept is computed but unused. -/
def slopeReduce (data : List (ℚ × ℚ)) : ℚ :=
  olsSlope (data.map (fun p => p.1 * 10)) (data.map (fun p => p.2))

/-- Per-replica diffusion estimate: diff = slope * CONV_FACT3 / 6
(calc_diffusion.py line 98). -/
def diffEstimate (data : List (ℚ × ℚ)) : ℚ :=
  slopeReduce data * CONV_FACT3 / 6

end Diffusion

/-- C1: for n >= 2 estimates the aggregator yields mean = sum/n and a
standard deviation sqrt(sum((v-mean)^2)/(n-1)) with the Bessel divisor n-1;
for n = 1 it fails with the insufficient-replicas error. -/
theorem C1_aggregator (vs : List ℚ) :
    (2 ≤ vs.length →
      ∃ m s, aggregate vs = .ok (m, s) ∧
        m = vs.sum / (vs.length : ℚ) ∧
        s = (vs.map (fun v => (v - vs.sum / (vs.length : ℚ)) ^ 2)).sum
              / ((vs.length : ℚ) - 1) ∧
        Real.sqrt (s : ℚ) =
          Real.sqrt (((vs.map (fun v => (v - vs.sum / (vs.length : ℚ)) ^ 2)).sum
              / ((vs.length : ℚ) - 1) : ℚ))) ∧
    (vs.length = 1 → aggregate vs = .error .insufficientReplicas) := by
  constructor
  · intro h2
    have hlt : ¬ vs.length < MIN_DATA_FILES := by
      simp only [MIN_DATA_FILES]; omega
    have hcast : ((vs.length - 1 : ℕ) : ℚ) = (vs.length : ℚ) - 1 := by
      rw [Nat.cast_sub (by omega), Nat.cast_one]
    refine ⟨vs.sum / (vs.length : ℚ),
      (vs.map (fun v => (v - vs.sum / (vs.length : ℚ)) ^ 2)).sum
        / ((vs.length : ℚ) - 1), ?_, rfl, rfl, rfl⟩
    simp only [aggregate, hlt, if_false, hcast]
  · intro h1
    have hlt : vs.length < MIN_DATA_FILES := by
      simp only [MIN_DATA_FILES]; omega
    simp only [aggregate, hlt, if_true]

/-- Witness for C1 at the concrete inputs [1, 2] and [5]. -/
theorem C1_aggregator_witness :
    aggregate [1, 2] = .ok (3 / 2, 1 / 2) ∧
    aggregate [5] = .error .insufficientReplicas := by
  constructor
  · obtain ⟨m, s, hok, hm, hs, _⟩ := (C1_aggregator [1, 2]).1 (by decide)
    rw [hok, hm, hs]
    norm_num
  · exact (C1_aggregator [5]).2 rfl

/-- C2: the per-replica heat-of-vaporization estimate is
-U_avg/N + R*T with N = 512 and R = 0.0019872036, U_avg being the mean of
the potential-energy series. -/
theorem C2_dhvap_estimate (T : ℤ) (Us : List ℚ) (h : Us ≠ []) :
    DHvap.dhvapOf T Us = - (Us.sum / (Us.length : ℚ)) / 512
        + 0.0019872036 * (T : ℚ) ∧
    DHvap.N = 512 ∧ DHvap.R = 0.0019872036 ∧
    meanReduce Us = .ok (Us.sum / (Us.length : ℚ)) := by
  refine ⟨rfl, rfl, rfl, ?_⟩
  have hlen : ¬ Us.length = 0 := by
    simpa [List.length_eq_zero] using h
  simp only [meanReduce, hlen, if_false]

/-- Witness for C2 at the series [-5120, -5122] and T = 298. -/
theorem C2_dhvap_estimate_witness :
    DHvap.dhvapOf 298 [-5120, -5122] =
      - (((-5120 : ℚ) + -5122 + 0) / 2) / 512 + 0.0019872036 * 298 := by
  have h := C2_dhvap_estimate 298 [-5120, -5122] (by decide)
  rw [h.1]
  norm_num

/-- C7: the mean reduction fails with the empty-series error on zero tokens
(guarding the divide-by-zero), and on exactly one token returns that token. -/
theorem C7_mean_reduction :
    meanReduce ([] : List ℚ) = .error .emptySeries ∧
    ∀ x : ℚ, meanReduce [x] = .ok x := by
  refine ⟨rfl, fun x => ?_⟩
  simp [meanReduce]

/-- C3: for every temperature looked up in both correction tables, the
heat-of-vaporization correction applied by the driver is
C_pol + C_vib(T) + C_ni(T) + C_x with C_x = 0; the C_pol recomputed in each
loop iteration is the same constant
-0.5*(mu_gas - mu_liquid)^2/(alpha_gas*CONV_FACT) independent of the
temperature; and the emitted corrected mean is mean + C. -/
theorem C3_correction (cvib cni : ℤ → ℚ) (T : ℤ) (files : List (List ℚ))
    (h2 : 2 ≤ files.length) (hne : files.any List.isEmpty = false) :
    (∃ row, DHvap.runDHvapTemp cvib cni T files = .ok row ∧
      row.corr = DHvap.C_pol + cvib T + cni T + DHvap.C_x ∧
      row.mean_corr = row.mean + row.corr) ∧
    DHvap.C_x = 0 ∧
    (∀ T1 : ℤ, DHvap.cPolAt T1 =
      -0.5 * ((DHvap.mu_gas - DHvap.mu_liquid)) ^ 2
        / (DHvap.alpha_gas * DHvap.CONV_FACT)) ∧
    (∀ T1 ∈ DHvap.temps, ∀ T2 ∈ DHvap.temps, DHvap.cPolAt T1 = DHvap.cPolAt T2) := by
  refine ⟨?_, rfl, fun T1 => rfl, fun T1 _ T2 _ => rfl⟩
  have hlt : ¬ files.length < MIN_DATA_FILES := by
    simp only [MIN_DATA_FILES]; omega
  simp only [DHvap.runDHvapTemp, hlt, if_false, hne, Bool.false_eq_true]
  exact ⟨_, rfl, rfl, rfl⟩

/-- Witness for C3 with constant tables and two one-token replica files. -/
theorem C3_correction_witness :
    ∃ row, DHvap.runDHvapTemp (fun _ => 1) (fun _ => 2) 238 [[-5120], [-5122]]
        = .ok row ∧
      row.corr = DHvap.C_pol + 1 + 2 + DHvap.C_x ∧
      row.mean_corr = row.mean + row.corr := by
  exact (C3_correction (fun _ => 1) (fun _ => 2) 238 [[-5120], [-5122]]
    (by decide) (by decide)).1

/-- C8: with fewer than 2 matching replica files the driver prints the
diagnostic naming the threshold and terminates with exit status 1 before
aggregating; with exactly 2 matching (non-empty) files it proceeds through
the pipeline and emits a row. -/
theorem C8_discovery_threshold (cvib cni : ℤ → ℚ) (T : ℤ)
    (files : List (List ℚ)) :
    (files.length < 2 →
      DHvap.runDHvapTemp cvib cni T files =
        .error ⟨"Less than 2 .dat files were found to process, terminating.", 1⟩) ∧
    (files.length = 2 → files.any List.isEmpty = false →
      ∃ row, DHvap.runDHvapTemp cvib cni T files = .ok row) := by
  constructor
  · intro hlt
    have h : files.length < MIN_DATA_FILES := by
      simp only [MIN_DATA_FILES]; omega
    simp only [DHvap.runDHvapTemp, h, if_true]
  · intro hlen hne
    have h : ¬ files.length < MIN_DATA_FILES := by
      simp only [MIN_DATA_FILES]; omega
    simp only [DHvap.runDHvapTemp, h, if_false, hne, Bool.false_eq_true]
    exact ⟨_, rfl⟩

/-- Witness for C8 at one file (fails) and two files (proceeds). -/
theorem C8_discovery_threshold_witness :
    DHvap.runDHvapTemp (fun _ => 0) (fun _ => 0) 238 [[1]] =
      .error ⟨"Less than 2 .dat files were found to process, terminating.", 1⟩ ∧
    ∃ row, DHvap.runDHvapTemp (fun _ => 0) (fun _ => 0) 238 [[1], [2]] = .ok row :=
  ⟨(C8_discovery_threshold (fun _ => 0) (fun _ => 0) 238 [[1]]).1 (by decide),
   (C8_discovery_threshold (fun _ => 0) (fun _ => 0) 238 [[1], [2]]).2 rfl (by decide)⟩

/-- C4: the per-replica density estimate equals 1.66 * (512 * 18.0154)
divided by the mean volume, with MASS = 512 molecules times the molar mass
of water, and the density pipeline adds no temperature-dependent correction:
two runs of the driver on the same files at different temperatures emit the
same mean volume, mean density and standard deviation. -/
theorem C4_density (volumes : List ℚ) (h : 0 < Density.volAvg volumes) :
    Density.densityOf volumes
      = 1.66 * (512 * 18.0154) / Density.volAvg volumes ∧
    Density.MASS = 512 * 18.0154 ∧
    ∀ (T T' : ℤ) (files : List (List ℚ)) (row row' : Density.DensRow),
      Density.runDensityTemp T files = .ok row →
      Density.runDensityTemp T' files = .ok row' →
      row.vol_mean = row'.vol_mean ∧ row.mean = row'.mean ∧
        row.std_dev_sq = row'.std_dev_sq := by
  refine ⟨?_, by norm_num [Density.MASS], ?_⟩
  · norm_num [Density.densityOf, Density.CONV_FACT, Density.MASS]
  · intro T T' files row row' hr hr'
    unfold Density.runDensityTemp at hr hr'
    by_cases h1 : files.length < MIN_DATA_FILES
    · rw [if_pos h1] at hr
      exact Except.noConfusion hr
    · rw [if_neg h1] at hr hr'
      by_cases hx : files.any List.isEmpty = true
      · rw [if_pos hx] at hr
        exact Except.noConfusion hr
      · rw [if_neg hx] at hr hr'
        injection hr with hrow
        injection hr' with hrow'
        rw [← hrow, ← hrow']
        exact ⟨rfl, rfl, rfl⟩

/-- Witness for C4 at the one-token volume series [2]. -/
theorem C4_density_witness :
    0 < Density.volAvg [2] ∧
    Density.densityOf [2] = 1.66 * (512 * 18.0154) / Density.volAvg [2] := by
  have h : 0 < Density.volAvg [2] := by norm_num [Density.volAvg]
  exact ⟨h, (C4_density [2] h).1⟩

/-- One step of the density loop applied to the state reached after some
files is the state reached after those files plus the new one. -/
lemma stepFile_mkState (d : ℚ) (done : List (List ℚ)) (vols : List ℚ) :
    Density.stepFile d (Density.mkState d done) vols
      = Density.mkState d (done ++ [vols]) := by
  simp [Density.stepFile, Density.mkState, Density.volAvg, Density.densityOf]

/-- Folding the density loop from the state after some files processes the
remaining files. -/
lemma foldl_stepFile (d : ℚ) (files : List (List ℚ)) :
    ∀ done, files.foldl (Density.stepFile d) (Density.mkState d done)
      = Density.mkState d (done ++ files) := by
  induction files with
  | nil => intro done; simp
  | cons f fs ih =>
    intro done
    rw [List.foldl_cons, stepFile_mkState, ih (done ++ [f])]
    simp

/-- The initial loop state is the state after zero files. -/
lemma mkState_nil (d : ℚ) : Density.mkState d [] = ⟨[], [], 0, 0, 0⟩ := by
  simp [Density.mkState]

/-- C10: after processing all n >= 2 replica files, the values emitted by
the density loop, although recomputed incrementally inside the per-file
loop, equal the one-shot aggregates over the complete list of per-replica
estimates: the mean volume is the mean of all per-file mean volumes, and
the mean density with its standard deviation are exactly what the
compute-once statistical aggregator returns on the full estimate list. -/
theorem C10_density_refinement (T : ℤ) (files : List (List ℚ))
    (h2 : 2 ≤ files.length) (hne : files.any List.isEmpty = false) :
    ∃ row, Density.runDensityTemp T files = .ok row ∧
      row.vol_mean = (files.map Density.volAvg).sum / (files.length : ℚ) ∧
      row.mean = (files.map Density.densityOf).sum / (files.length : ℚ) ∧
      row.std_dev_sq =
        ((files.map Density.densityOf).map
            (fun v => (v - (files.map Density.densityOf).sum / (files.length : ℚ)) ^ 2)).sum
          / ((files.length : ℚ) - 1) ∧
      aggregate (files.map Density.densityOf) = .ok (row.mean, row.std_dev_sq) := by
  have hlt : ¬ files.length < MIN_DATA_FILES := by
    simp only [MIN_DATA_FILES]; omega
  have hcast : ((files.length - 1 : ℕ) : ℚ) = (files.length : ℚ) - 1 := by
    rw [Nat.cast_sub (by omega), Nat.cast_one]
  have hfold : files.foldl (Density.stepFile ((files.length - 1 : ℕ) : ℚ))
      (⟨[], [], 0, 0, 0⟩ : Density.LoopState)
      = Density.mkState ((files.length - 1 : ℕ) : ℚ) files := by
    rw [← mkState_nil ((files.length - 1 : ℕ) : ℚ),
      foldl_stepFile ((files.length - 1 : ℕ) : ℚ) files []]
    simp
  have hlt2 : ¬ (files.map Density.densityOf).length < MIN_DATA_FILES := by
    rw [List.length_map]; exact hlt
  simp only [Density.runDensityTemp, hlt, if_false, hne, Bool.false_eq_true, hfold]
  refine ⟨_, rfl, ?_, ?_, ?_, ?_⟩
  · simp [Density.mkState, List.length_map]
  · simp [Density.mkState, List.length_map]
  · simp [Density.mkState, List.length_map, hcast]
  · simp only [aggregate, hlt2, if_false]
    simp [Density.mkState, List.length_map]

/-- Witness for C10 at the two one-token volume files [1] and [2]. -/
theorem C10_density_refinement_witness :
    ∃ row, Density.runDensityTemp 238 [[1], [2]] = .ok row ∧
      aggregate (([[1], [2]] : List (List ℚ)).map Density.densityOf)
        = .ok (row.mean, row.std_dev_sq) := by
  obtain ⟨row, h1, _, _, _, h5⟩ :=
    C10_density_refinement 238 [[1], [2]] (by decide) (by decide)
  exact ⟨row, h1, h5⟩

/-- Sum of an affine image of a list. -/
lemma sum_map_line (a b : ℚ) (xs : List ℚ) :
    (xs.map (fun x => a * x + b)).sum = a * xs.sum + b * (xs.length : ℚ) := by
  induction xs with
  | nil => simp
  | cons x xs ih =>
    simp only [List.map_cons, List.sum_cons, ih, List.length_cons]
    push_cast
    ring

/-- Sum of the products of a list zipped with its own affine image. -/
lemma sum_zip_line (a b : ℚ) (xs : List ℚ) :
    ((xs.zip (xs.map (fun x => a * x + b))).map (fun p => p.1 * p.2)).sum
      = a * (xs.map (fun x => x ^ 2)).sum + b * xs.sum := by
  induction xs with
  | nil => simp
  | cons x xs ih =>
    simp only [List.map_cons, List.zip_cons_cons, List.sum_cons, ih]
    ring

/-- Sum of squared deviations from a constant, expanded. -/
lemma sum_map_sub_sq (c : ℚ) (xs : List ℚ) :
    (xs.map (fun x => (x - c) ^ 2)).sum
      = (xs.map (fun x => x ^ 2)).sum - 2 * c * xs.sum + (xs.length : ℚ) * c ^ 2 := by
  induction xs with
  | nil => simp
  | cons x xs ih =>
    simp only [List.map_cons, List.sum_cons, ih, List.length_cons]
    push_cast
    ring

/-- A sum of squared deviations is positive when some element differs from
the centre. -/
lemma list_sum_sq_pos (xs : List ℚ) (c x0 : ℚ) (hx0 : x0 ∈ xs) (hne : x0 ≠ c) :
    0 < (xs.map (fun x => (x - c) ^ 2)).sum := by
  obtain ⟨s, t, rfl⟩ := List.append_of_mem hx0
  rw [List.map_append, List.sum_append, List.map_cons, List.sum_cons]
  have h1 : 0 ≤ (s.map (fun x => (x - c) ^ 2)).sum := by
    apply List.sum_nonneg
    intro y hy
    obtain ⟨z, _, rfl⟩ := List.mem_map.mp hy
    exact sq_nonneg _
  have h2 : 0 ≤ (t.map (fun x => (x - c) ^ 2)).sum := by
    apply List.sum_nonneg
    intro y hy
    obtain ⟨z, _, rfl⟩ := List.mem_map.mp hy
    exact sq_nonneg _
  have h3 : 0 < (x0 - c) ^ 2 := by
    have hd : x0 - c ≠ 0 := sub_ne_zero.mpr hne
    exact lt_of_le_of_ne (sq_nonneg _) (Ne.symm (pow_ne_zero 2 hd))
  linarith

/-- The least-squares denominator n * sum(x^2) - sum(x)^2 is positive when
the list holds two distinct values. -/
lemma denom_pos (xs : List ℚ) (h2 : 2 ≤ xs.length) (u v : ℚ)
    (hu : u ∈ xs) (hv : v ∈ xs) (huv : u ≠ v) :
    0 < (xs.length : ℚ) * (xs.map (fun x => x ^ 2)).sum - xs.sum ^ 2 := by
  have hnpos : 0 < (xs.length : ℚ) := by
    exact_mod_cast (by omega : 0 < xs.length)
  have hn0 : (xs.length : ℚ) ≠ 0 := hnpos.ne'
  have key : (xs.length : ℚ) * ((xs.map (fun x => (x - xs.sum / (xs.length : ℚ)) ^ 2)).sum)
      = (xs.length : ℚ) * (xs.map (fun x => x ^ 2)).sum - xs.sum ^ 2 := by
    rw [sum_map_sub_sq]
    field_simp
    ring
  have hx0 : ∃ x0 ∈ xs, x0 ≠ xs.sum / (xs.length : ℚ) := by
    by_cases hum : u = xs.sum / (xs.length : ℚ)
    · exact ⟨v, hv, fun h => huv (by rw [hum, h])⟩
    · exact ⟨u, hu, hum⟩
  obtain ⟨x0, hx0m, hx0ne⟩ := hx0
  have hpos := list_sum_sq_pos xs (xs.sum / (xs.length : ℚ)) x0 hx0m hx0ne
  have := mul_pos hnpos hpos
  rw [key] at this
  exact this

/-- The ordinary-least-squares slope of an exactly affine data set is the
line coefficient. -/
lemma olsSlope_linear (a b : ℚ) (xs : List ℚ) (h2 : 2 ≤ xs.length)
    (u v : ℚ) (hu : u ∈ xs) (hv : v ∈ xs) (huv : u ≠ v) :
    Diffusion.olsSlope xs (xs.map (fun x => a * x + b)) = a := by
  have hD := denom_pos xs h2 u v hu hv huv
  simp only [Diffusion.olsSlope]
  rw [sum_map_line, sum_zip_line, div_eq_iff hD.ne']
  ring

/-- C5: on a series of at least two points lying exactly on the line
y = a * x + b in the rescaled time units, with not all time values equal,
the slope reduction returns exactly a, for every intercept b. -/
theorem C5_slope_reduction (data : List (ℚ × ℚ)) (a b : ℚ)
    (h2 : 2 ≤ data.length)
    (hline : ∀ p ∈ data, p.2 = a * (p.1 * 10) + b)
    (hx : ∃ p ∈ data, ∃ q ∈ data, p.1 ≠ q.1) :
    Diffusion.slopeReduce data = a := by
  have hyd : data.map (fun p => p.2)
      = (data.map (fun p => p.1 * 10)).map (fun x => a * x + b) := by
    rw [List.map_map]
    exact List.map_congr_left hline
  obtain ⟨p, hp, q, hq, hpq⟩ := hx
  have hu : p.1 * 10 ∈ data.map (fun r => r.1 * 10) :=
    List.mem_map_of_mem _ hp
  have hv : q.1 * 10 ∈ data.map (fun r => r.1 * 10) :=
    List.mem_map_of_mem _ hq
  have hne : p.1 * 10 ≠ q.1 * 10 := by
    intro h
    exact hpq (mul_right_cancel₀ (by norm_num : (10 : ℚ) ≠ 0) h)
  have hlen : 2 ≤ (data.map (fun r => r.1 * 10)).length := by
    rw [List.length_map]; exact h2
  unfold Diffusion.slopeReduce
  rw [hyd]
  exact olsSlope_linear a b _ hlen _ _ hu hv hne

/-- Witness for C5 on the two points (0, 3) and (1, 23) of the line
y = 2 * x + 3 in rescaled units. -/
theorem C5_slope_reduction_witness :
    Diffusion.slopeReduce [((0 : ℚ), (3 : ℚ)), (1, 23)] = 2 := by
  refine C5_slope_reduction [((0 : ℚ), (3 : ℚ)), (1, 23)] 2 3 (by simp)
    (by norm_num) ⟨(0, 3), by simp, (1, 23), by simp, by norm_num⟩

/-- C6: the diffusion correction is
((2.837297 * k_B)/(6 * pi)) * T / (viscosity * L) / 1e-9 with
k_B = 1.380648e-23, the table loader pre-scales each viscosity row by 1e-3
at load time, and the per-replica diffusion estimate is the slope-reduction
result (time rescaled by 10 before fitting) times 100/6. -/
theorem C6_diffusion_correction (pi : ℚ) (T : ℤ) (visc : ℚ)
    (rows : List (ℤ × ℚ)) (raw : ℚ) :
    Diffusion.corrDiff pi T visc
      = ((2.837297 * Diffusion.k_B) / (6 * pi)) * (T : ℚ)
          / (visc * Diffusion.L) / 1e-9 ∧
    Diffusion.k_B = 1.380648e-23 ∧
    Diffusion.loadVisc (rows ++ [(T, raw)]) T = some (raw * (1 / 1000)) ∧
    (∀ data : List (ℚ × ℚ), Diffusion.diffEstimate data
        = Diffusion.slopeReduce data * (100 / 6)) ∧
    (∀ data : List (ℚ × ℚ), Diffusion.slopeReduce data
        = Diffusion.olsSlope (data.map (fun p => p.1 * 10))
            (data.map (fun p => p.2))) := by
  refine ⟨?_, rfl, ?_, ?_, fun data => rfl⟩
  · simp only [Diffusion.corrDiff, Diffusion.diffusionConstant]
    ring
  · simp only [Diffusion.loadVisc, List.foldl_append, List.foldl_cons,
      List.foldl_nil, if_pos rfl]
    norm_num [Diffusion.CONV_FACT_VISC]
  · intro data
    simp only [Diffusion.diffEstimate, Diffusion.CONV_FACT3]
    ring

/-- C9 (code evaluation at the failing input): with exactly one matching
replica file the run opens handle 0 and terminates without ever closing it,
while on the normal two-file path every opened handle is closed. -/
theorem C9_handle_leak :
    traceDHvap 1 = [Ev.opened 0] ∧
    Ev.closed 0 ∉ traceDHvap 1 ∧
    traceDHvap 2 = [Ev.opened 0, Ev.opened 1, Ev.closed 0, Ev.closed 1] := by
  refine ⟨by decide, by decide, by decide⟩

end WaterModel
